import Mathlib

/-!
Shallow embedding of the standard-matching and compliance-evaluation engine of
the `final_seperated_analysis` repository, together with proofs settling the
claims about it.

Embedded sources:
* `standard_export/src/alias_normalizer.py` — alias table, `normalize_key`,
  `validate_lighting_values`;
* `final project/src/compliance_checker.py` — `find_matching_standard`,
  `_has_lighting_requirements`, `_has_uniformity_requirement`,
  `_find_parameter_value`, `check_compliance`,
  `_perform_room_compliance_check`, `_determine_overall_compliance`,
  `_generate_summary`.

Modelling conventions: Python dicts with fixed field sets become structures
with `Option` fields (absent and `None` both map to `none`, matching the
`dict.get` accesses the code performs); numeric values are `ℚ`; Python string
membership `a in b` is infix-of on character lists; Python `str.split()`
is split-on-whitespace dropping empty pieces.  All functions are total, which
embeds the code's non-raising behaviour on data-model-conforming inputs.
-/

/-- Python whitespace class restricted to ASCII. -/
def pyIsSpace (c : Char) : Bool :=
  c = ' ' || c = '\t' || c = '\n' || c = '\r' || c = '\x0b' || c = '\x0c'

/-- Python `str.lower()` on one character (ASCII range). -/
def pyLowerChar (c : Char) : Char :=
  if 'A' ≤ c && c ≤ 'Z' then Char.ofNat (c.toNat + 32) else c

/-- Python `str.lower()` (ASCII range). -/
def pyLower (s : String) : String :=
  String.mk (s.data.map pyLowerChar)

/-- Python `str.strip()`: drop whitespace from both ends. -/
def pyStrip (s : String) : String :=
  String.mk
    (((s.data.dropWhile fun c => pyIsSpace c).reverse.dropWhile
      fun c => pyIsSpace c).reverse)

/-- Helper for `pyIn`: does the first list start the second? -/
def isPrefList : List Char → List Char → Bool
  | [], _ => true
  | _ :: _, [] => false
  | a :: as, b :: bs => a == b && isPrefList as bs

/-- Helper for `pyIn`: does the needle occur at some position of the hay? -/
def pyInAux (needle : List Char) : List Char → Bool
  | [] => needle.isEmpty
  | b :: rest => isPrefList needle (b :: rest) || pyInAux needle rest

/-- Python `x in s` for strings: `x` occurs as a contiguous substring of `s`. -/
def pyIn (needle hay : String) : Bool :=
  pyInAux needle.data hay.data

/-- Worker for `pySplit`: the first argument accumulates the characters of
the token being read, in reverse. -/
def pySplitGo : List Char → List Char → List String
  | acc, [] => if acc.isEmpty then [] else [String.mk acc.reverse]
  | acc, c :: cs =>
    if pyIsSpace c then
      if acc.isEmpty then pySplitGo [] cs
      else String.mk acc.reverse :: pySplitGo [] cs
    else pySplitGo (c :: acc) cs

/-- Python `s.split()`—split on whitespace runs, dropping empty pieces. -/
def pySplit (s : String) : List String :=
  pySplitGo [] s.data

/-! ## Alias normalizer (`standard_export/src/alias_normalizer.py`) -/

/-- The static `ALIASES` table of `alias_normalizer.py`, verbatim. -/
def ALIASES : List (String × List String) := [
  ("Em_r_lx", [
    "em_r_lx", "em", "e_m", "average lux", "maintained lux", "target lux",
    "maintained illuminance", "required illuminance", "reference illuminance",
    "illuminance", "lux", "lx", "em_r", "em_r_lx", "maintained_illuminance"]),
  ("Em_u_lx", [
    "em_u_lx", "upper lux", "max lux", "maximum lux", "recommended lux",
    "upper illuminance", "max illuminance", "em_u", "em_u_lx"]),
  ("Uo", [
    "uo", "u0", "uniformity", "emin/eavg", "min/avg", "illuminance uniformity",
    "uniformity ratio", "uniformity factor", "u_o", "uniformity_index"]),
  ("RUGL", [
    "rugl", "ugr", "glare index", "unified glare rating", "glare rating",
    "ugr limit", "glare limit", "unified_glare_rating", "glare_rating"]),
  ("Ra", [
    "ra", "cri", "color rendering index", "r_a", "colour rendering index",
    "color rendering", "colour rendering", "cri_ra", "rendering_index"]),
  ("R9", [
    "r9", "cri_r9", "red rendering", "red color rendering", "r_9",
    "red_rendering", "cri_red"]),
  ("CCT", [
    "cct", "ct", "colour temperature", "k", "kelvin", "color temperature",
    "correlated colour temperature", "correlated color temperature",
    "colour_temp", "color_temp", "kelvin_temp"]),
  ("Ez_lx", [
    "ez_lx", "background lux", "surround illuminance", "e_z", "ez",
    "background illuminance", "surround lux", "ambient illuminance"]),
  ("luminous_flux_lm", [
    "luminous flux", "flux", "lm", "φ", "phi", "luminous output",
    "light flux", "light output", "luminous_flux", "light_flux"]),
  ("power_w", [
    "power", "wattage", "lamp power", "p", "w", "watts", "electrical power",
    "lamp wattage", "fixture power", "luminous_power"]),
  ("mounting_height_m", [
    "mounting height", "suspension height", "hm", "height", "mounting_height",
    "suspension_height", "fixture height", "lamp height", "h_m"]),
  ("luminous_efficacy_lm_per_w", [
    "lm/w", "efficacy", "η", "eta", "luminous efficiency", "efficiency",
    "luminous_efficacy", "light_efficiency", "lm_per_w", "lumens_per_watt"]),
  ("Em_wall_lx", [
    "em_wall_lx", "wall lux", "wall illuminance", "wall lighting",
    "wall_illuminance", "em_wall", "wall_lux"]),
  ("Em_ceiling_lx", [
    "em_ceiling_lx", "ceiling lux", "ceiling illuminance", "ceiling lighting",
    "ceiling_illuminance", "em_ceiling", "ceiling_lux"]),
  ("specific_requirements", [
    "specific requirements", "requirements", "notes", "comments",
    "additional requirements", "special requirements", "remarks",
    "specific_reqs", "additional_notes"]),
  ("ref_no", [
    "ref_no", "reference", "ref", "reference number", "standard ref",
    "table ref", "clause ref", "reference_no", "standard_reference"]),
  ("category", [
    "category", "type", "classification", "group", "area type",
    "space type", "zone type", "category_type"]),
  ("task_or_activity", [
    "task_or_activity", "task", "activity", "description", "task description",
    "activity description", "space description", "task_description",
    "activity_description", "space_type"])]

/-- Separator class of the fuzzy pass: the regex `[_\-\s]+`. -/
def isSepChar (c : Char) : Bool :=
  c = '_' || c = '-' || pyIsSpace c

/-- Worker for `re.sub(r'[_\-\s]+', '_', s)`: the flag records whether the
previous character belonged to a separator run already rewritten to `_`. -/
def collapseGo : Bool → List Char → List Char
  | _, [] => []
  | inSep, c :: cs =>
    if isSepChar c then
      if inSep then collapseGo true cs else '_' :: collapseGo true cs
    else c :: collapseGo false cs

/-- Python `re.sub(r'[_\-\s]+', '_', s)`. -/
def collapseSeps (s : String) : String :=
  String.mk (collapseGo false s.data)

/-- First pass of `normalize_key`: direct lookup of the lowercased key against
the lowercased alias lists, in table order. -/
def directLookup (key_lower : String) : Option String :=
  (ALIASES.find? (fun ca => (ca.2.map pyLower).contains key_lower)).map
    (fun ca => ca.1)

/-- Second pass of `normalize_key`: fuzzy match after collapsing separators. -/
def fuzzyLookup (key_clean : String) : Option String :=
  (ALIASES.find? (fun ca =>
    ca.2.any (fun a => collapseSeps (pyLower a) == key_clean))).map
    (fun ca => ca.1)

/-- The `normalize_key` function of `alias_normalizer.py`. -/
def normalize_key (key : String) : String :=
  if key = "" then key
  else
    let key_lower := pyLower (pyStrip key)
    match directLookup key_lower with
    | some c => c
    | none =>
      match fuzzyLookup (collapseSeps key_lower) with
      | some c => c
      | none => key

/-! ## `validate_lighting_values` -/

/-- A record as seen by `validate_lighting_values`: the five range-checked
numeric fields plus the two side-channel fields the function writes. -/
structure LightRecord where
  Ra : Option ℚ
  Uo : Option ℚ
  Em_r_lx : Option ℚ
  RUGL : Option ℚ
  CCT : Option ℚ
  validation_issues : List String
  needs_review : Option Bool
  deriving Repr, DecidableEq

/-- Violation test for `Ra` (must be ≤ 100). -/
def raViol (r : LightRecord) : Bool :=
  match r.Ra with | some v => v > 100 | none => false

/-- Violation test for `Uo` (must be ≤ 1). -/
def uoViol (r : LightRecord) : Bool :=
  match r.Uo with | some v => v > 1 | none => false

/-- Violation test for `Em_r_lx` (must lie in [20, 20000]). -/
def emViol (r : LightRecord) : Bool :=
  match r.Em_r_lx with | some v => v < 20 || v > 20000 | none => false

/-- Violation test for `RUGL` (must lie in [10, 40]). -/
def ruglViol (r : LightRecord) : Bool :=
  match r.RUGL with | some v => v < 10 || v > 40 | none => false

/-- Violation test for `CCT` (must lie in [2000, 10000]). -/
def cctViol (r : LightRecord) : Bool :=
  match r.CCT with | some v => v < 2000 || v > 10000 | none => false

/-- The `validate_lighting_values` function of `alias_normalizer.py`:
each out-of-range field is nulled and a message collected; the collected
messages overwrite `validation_issues` only when non-empty, and
`needs_review` records whether any issue was found. -/
def validate_lighting_values (r : LightRecord) : LightRecord :=
  let issues : List String :=
    (if raViol r then ["Ra " ++ toString (r.Ra.getD 0) ++ " > 100"] else []) ++
    (if uoViol r then ["Uo " ++ toString (r.Uo.getD 0) ++ " > 1"] else []) ++
    (if emViol r then
      ["Em_r_lx " ++ toString (r.Em_r_lx.getD 0) ++ " outside range 20-20000"]
     else []) ++
    (if ruglViol r then
      ["RUGL " ++ toString (r.RUGL.getD 0) ++ " outside range 10-40"]
     else []) ++
    (if cctViol r then
      ["CCT " ++ toString (r.CCT.getD 0) ++ " outside range 2000-10000 K"]
     else [])
  { Ra := if raViol r then none else r.Ra
    Uo := if uoViol r then none else r.Uo
    Em_r_lx := if emViol r then none else r.Em_r_lx
    RUGL := if ruglViol r then none else r.RUGL
    CCT := if cctViol r then none else r.CCT
    validation_issues := if issues ≠ [] then issues else r.validation_issues
    needs_review := some (issues ≠ []) }

/-! ## Compliance checker data model (`final project/src/compliance_checker.py`)

Records are dicts in Python; here they are structures with `Option` fields
(`none` models both an absent key and an explicit `None`, matching the
defaulted `dict.get` accesses the code performs).  Measurement dicts (a scene
or the report's `lighting_setup`) are association lists from key strings to
numeric values, which is what the alias lookup iterates over. -/

/-- One `RequirementRecord` row of the standards catalog. -/
structure Standard where
  ref_no : Option String
  category : Option String
  task_or_activity : Option String
  Em_r_lx : Option ℚ
  Em_u_lx : Option ℚ
  Uo : Option ℚ
  Ra : Option ℚ
  RUGL : Option ℚ
  Ez_lx : Option ℚ
  Em_wall_lx : Option ℚ
  Em_ceiling_lx : Option ℚ
  deriving Repr, DecidableEq

/-- A room of the report: name and optional declared utilisation profile. -/
structure Room where
  name : Option String
  utilisation_profile : Option String
  deriving Repr, DecidableEq

/-- A scene of the report: name, optional declared profile, and its numeric
entries (the key/value pairs the alias lookup and measurement reads see). -/
structure Scene where
  scene_name : Option String
  utilisation_profile : Option String
  data : List (String × ℚ)
  deriving Repr, DecidableEq

/-- The extracted report as consumed by `check_compliance`. -/
structure Report where
  lighting_setup : List (String × ℚ)
  rooms : List Room
  scenes : List Scene
  deriving Repr, DecidableEq

/-- Python `d.get(k, 0)` on a numeric dict. -/
def getQ (d : List (String × ℚ)) (k : String) : ℚ :=
  (d.lookup k).getD 0

/-- Python `standard.get('task_or_activity', '') or ''`, lowercased. -/
def taskLower (s : Standard) : String :=
  pyLower (s.task_or_activity.getD "")

/-- Python `standard.get('category', '') or ''`, lowercased. -/
def categoryLower (s : Standard) : String :=
  pyLower (s.category.getD "")

/-- The `_has_lighting_requirements` check: some numeric field is present and
non-zero. -/
def has_lighting_requirements (s : Standard) : Bool :=
  [s.Em_r_lx, s.Em_u_lx, s.Uo, s.Ra, s.RUGL, s.Ez_lx, s.Em_wall_lx,
    s.Em_ceiling_lx].any
    (fun v => match v with | some x => decide (x ≠ 0) | none => false)

/-- The `_has_uniformity_requirement` check: `Uo` present and non-zero. -/
def has_uniformity_requirement (s : Standard) : Bool :=
  match s.Uo with | some x => decide (x ≠ 0) | none => false

/-! ## Profile resolver (`find_matching_standard`) -/

/-- Keyword list shared by rule 4 of the resolver and the scene-name
inference of `check_compliance`. -/
def industrialKeywords : List String :=
  ["factory", "industrial", "warehouse", "manufacturing"]

/-- Rule 1 predicate: exact case-insensitive task match, requiring lighting
and uniformity requirements. -/
def rule1Pred (pl : String) (s : Standard) : Bool :=
  taskLower s == pl &&
    (has_lighting_requirements s && has_uniformity_requirement s)

/-- Rule 2 predicate: exact case-insensitive task match, requiring only
lighting requirements. -/
def rule2Pred (pl : String) (s : Standard) : Bool :=
  taskLower s == pl && has_lighting_requirements s

/-- Rule 3 predicate: partial match against task or category, or any
whitespace token of the profile inside the task; lighting and uniformity
requirements required. -/
def rule3Pred (pl : String) (s : Standard) : Bool :=
  (pyIn pl (taskLower s) || pyIn pl (categoryLower s) ||
    (pySplit pl).any (fun kw => pyIn kw (taskLower s))) &&
  (has_lighting_requirements s && has_uniformity_requirement s)

/-- Rule 4 predicate: the task mentions an industrial keyword; only lighting
requirements required. -/
def rule4Pred (s : Standard) : Bool :=
  industrialKeywords.any (fun kw => pyIn kw (taskLower s)) &&
    has_lighting_requirements s

/-- Rule 5 predicate: the task mentions a generic-activity keyword; lighting
and uniformity requirements required. -/
def rule5Pred (s : Standard) : Bool :=
  (["general", "work", "office"].any fun kw => pyIn kw (taskLower s)) &&
    (has_lighting_requirements s && has_uniformity_requirement s)

/-- Rule 6 (last-resort) predicate: any record with both lighting and
uniformity requirements. -/
def rule6Pred (s : Standard) : Bool :=
  has_lighting_requirements s && has_uniformity_requirement s

/-- The `find_matching_standard` method.  `standardsData = none` models a
missing/empty standards file (the `'standards' not in self.standards_data`
guard); each rule scans the catalog in order and the first hit wins. -/
def find_matching_standard (standardsData : Option (List Standard))
    (utilisation_profile : String) : Option Standard :=
  match standardsData with
  | none => none
  | some stds =>
    let pl := pyLower utilisation_profile
    (stds.find? (rule1Pred pl)) <|>
    (stds.find? (rule2Pred pl)) <|>
    (stds.find? (rule3Pred pl)) <|>
    (if industrialKeywords.any (fun kw => pyIn kw pl) then
      stds.find? rule4Pred
     else none) <|>
    (stds.find? rule5Pred) <|>
    (stds.find? rule6Pred)

/-! ## Parameter alias lookup (`_find_parameter_value`) -/

/-- Result of `_find_parameter_value`. -/
structure FindResult where
  found : Bool
  source : Option String
  value : Option ℚ
  deriving Repr, DecidableEq

/-- Worker of `_find_parameter_value`: for each alias in order, try the exact
key, then a case-insensitive scan over the data's own keys. -/
def findParamGo (data : List (String × ℚ)) : List String → FindResult
  | [] => ⟨false, none, none⟩
  | al :: rest =>
    match data.lookup al with
    | some v => ⟨true, some al, some v⟩
    | none =>
      match data.find? (fun kv => pyLower kv.1 == pyLower al) with
      | some kv => ⟨true, some kv.1, some kv.2⟩
      | none => findParamGo data rest

/-- The `_find_parameter_value` method: `parameter_mapping` is the
`'parameters'` table of `parameter_mapping.json` (runtime configuration,
hence a parameter here); a missing table gives the not-found result, exactly
as the `if not self.parameter_mapping` guard does. -/
def find_parameter_value (parameter_mapping : List (String × List String))
    (data : List (String × ℚ)) (parameter_type : String) : FindResult :=
  findParamGo data ((parameter_mapping.lookup parameter_type).getD [])

/-! ## Room compliance evaluation (`_perform_room_compliance_check`) -/

/-- One mandatory per-parameter check entry (lux or uniformity). -/
structure NumCheck where
  required : ℚ
  actual : ℚ
  compliant : Bool
  margin : ℚ
  deriving Repr, DecidableEq

/-- The informational Ra/CRI check entry. -/
structure RaCheck where
  required : ℚ
  actual : Option ℚ
  compliant : Option Bool
  margin : Option ℚ
  found : Bool
  source : Option String
  note : String
  deriving Repr, DecidableEq

/-- The identifying fields of the matched standard recorded per room. -/
structure StandardRef where
  ref_no : String
  category : String
  task_or_activity : String
  deriving Repr, DecidableEq

/-- One element of the result's `checks` list: either a full room result or a
`NO_STANDARD_FOUND` entry (then `standard` and the three checks are absent and
`message` is set). -/
structure CheckEntry where
  room : String
  utilisation_profile : String
  standard : Option StandardRef
  lux : Option NumCheck
  uniformity : Option NumCheck
  ra : Option RaCheck
  status : String
  message : Option String
  deriving Repr, DecidableEq

/-- Python `standard.get('Em_r_lx', 0) or standard.get('Em_u_lx', 0) or 0`. -/
def required_lux (s : Standard) : ℚ :=
  let a := s.Em_r_lx.getD 0
  if a ≠ 0 then a else s.Em_u_lx.getD 0

/-- Python `standard.get('Uo', 0) or 0`. -/
def required_uniformity (s : Standard) : ℚ :=
  s.Uo.getD 0

/-- Python `standard.get('Ra', 0) or 0`. -/
def required_ra (s : Standard) : ℚ :=
  s.Ra.getD 0

/-- The `_perform_room_compliance_check` method.  `lighting_setup` is the
measurement dict chosen by the caller (scene or aggregate setup); the status
starts at PASS and flips to FAIL on a failing lux or uniformity check; the Ra
check is recorded but never touches the status. -/
def perform_room_compliance_check
    (parameter_mapping : List (String × List String)) (room : Room)
    (standard : Standard) (lighting_setup : List (String × ℚ)) : CheckEntry :=
  let average_lux := getQ lighting_setup "average_lux"
  let uniformity := getQ lighting_setup "uniformity"
  let ra := find_parameter_value parameter_mapping lighting_setup
    "color_rendering_ra"
  let rl := required_lux standard
  let ru := required_uniformity standard
  let rra := required_ra standard
  let luxCheck : Option NumCheck :=
    if rl > 0 then
      some ⟨rl, average_lux, decide (average_lux ≥ rl),
        if average_lux ≥ rl then average_lux - rl else rl - average_lux⟩
    else none
  let unifCheck : Option NumCheck :=
    if ru > 0 then
      some ⟨ru, uniformity, decide (uniformity ≥ ru),
        if uniformity ≥ ru then uniformity - ru else ru - uniformity⟩
    else none
  let raCheck : Option RaCheck :=
    if rra > 0 then
      if ra.found then
        let rv := ra.value.getD 0
        some ⟨rra, some rv, some (decide (rv ≥ rra)),
          some (if rv ≥ rra then rv - rra else rra - rv), true, ra.source,
          "Found as " ++ ra.source.getD ""⟩
      else
        some ⟨rra, none, none, none, false, none,
          "Ra/CRI not found in report (checked: " ++
            String.intercalate ", "
              ((parameter_mapping.lookup "color_rendering_ra").getD []) ++ ")"⟩
    else none
  let status1 := "PASS"
  let status2 :=
    if rl > 0 then (if average_lux ≥ rl then status1 else "FAIL") else status1
  let status3 :=
    if ru > 0 then (if uniformity ≥ ru then status2 else "FAIL") else status2
  { room := room.name.getD "Unknown"
    utilisation_profile := room.utilisation_profile.getD ""
    standard := some ⟨standard.ref_no.getD "", standard.category.getD "",
      standard.task_or_activity.getD ""⟩
    lux := luxCheck
    uniformity := unifCheck
    ra := raCheck
    status := status3
    message := none }

/-! ## Report aggregation (`check_compliance`) -/

/-- Room-name keyword inference used when neither the room nor the first
scene provides a profile; every branch yields a non-empty literal. -/
def nameInferredProfile (room : Room) : String :=
  let room_name := pyLower (room.name.getD "")
  if pyIn "office" room_name then "Office work"
  else if pyIn "factory" room_name || pyIn "warehouse" room_name ||
      pyIn "industrial" room_name then "General assembly work"
  else if pyIn "corridor" room_name || pyIn "hallway" room_name then
    "Traffic zones inside buildings - Corridors"
  else if pyIn "storage" room_name then "Storage areas"
  else if pyIn "building" room_name || pyIn "room" room_name then
    "General assembly work"
  else "General lighting"

/-- First two inference steps of `check_compliance` for one room: the room's
own declared profile; else, when scenes exist, a profile taken from the FIRST
scene (`scenes[0]`) — the industrial label when its name mentions an
industrial keyword, else its own declared profile. -/
def sceneProfile (room : Room) (scenes : List Scene) : String :=
  let p0 := room.utilisation_profile.getD ""
  if p0 = "" then
    match scenes.head? with
    | some s0 =>
      let scene_name := pyLower (s0.scene_name.getD "")
      if industrialKeywords.any (fun kw => pyIn kw scene_name) then
        "General assembly work"
      else s0.utilisation_profile.getD ""
    | none => p0
  else p0

/-- Full profile resolution of `check_compliance` for one room: the
room/scene steps of `sceneProfile`, then the room-name keyword rules. -/
def resolve_profile (room : Room) (scenes : List Scene) : String :=
  let p1 := sceneProfile room scenes
  if p1 = "" then nameInferredProfile room else p1

/-- Python truthiness of a scene dict: the empty dict is falsy.  A scene all
of whose fields are absent models `{}`. -/
def sceneFalsy (s : Scene) : Bool :=
  s.scene_name == none && s.utilisation_profile == none && s.data == []

/-- The body of the per-room loop of `check_compliance`: resolve the profile
(skipping the room if it resolved empty), look up the standard (recording a
`NO_STANDARD_FOUND` entry on failure), pick the measurement source (the scene
at `rooms.index(room)` when in range, else the first scene, else the
aggregate `lighting_setup`), and evaluate the room. -/
def process_room (parameter_mapping : List (String × List String))
    (standardsData : Option (List Standard)) (report : Report)
    (room : Room) : Option CheckEntry :=
  let profile := resolve_profile room report.scenes
  if profile = "" then none
  else
    match find_matching_standard standardsData profile with
    | none =>
      some { room := room.name.getD "Unknown"
             utilisation_profile := profile
             standard := none
             lux := none
             uniformity := none
             ra := none
             status := "NO_STANDARD_FOUND"
             message := some "No matching standard found" }
    | some standard =>
      let scene_data : Option Scene :=
        if report.scenes.isEmpty then none
        else
          let room_index := report.rooms.indexOf room
          if room_index < report.scenes.length then
            report.scenes.get? room_index
          else report.scenes.head?
      let lighting_data :=
        match scene_data with
        | some sc => if sceneFalsy sc then report.lighting_setup else sc.data
        | none => report.lighting_setup
      some (perform_room_compliance_check parameter_mapping room standard
        lighting_data)

/-- The `_determine_overall_compliance` method. -/
def determine_overall_compliance (checks : List CheckEntry) : String :=
  if checks.isEmpty then "NO_CHECKS"
  else
    let statuses := checks.map (fun c => c.status)
    if statuses.contains "FAIL" then "FAIL"
    else if statuses.contains "NO_STANDARD_FOUND" then "PARTIAL"
    else if statuses.all (fun st => st == "PASS") then "PASS"
    else "UNKNOWN"

/-- Summary statistics of `_generate_summary`. -/
structure Summary where
  total_rooms : ℕ
  passed : ℕ
  failed : ℕ
  no_standard_found : ℕ
  pass_rate : ℚ
  deriving Repr, DecidableEq

/-- The `_generate_summary` method. -/
def generate_summary (checks : List CheckEntry) : Summary :=
  let total_checks := checks.length
  let passed := (checks.filter (fun c => c.status == "PASS")).length
  let failed := (checks.filter (fun c => c.status == "FAIL")).length
  let no_standard :=
    (checks.filter (fun c => c.status == "NO_STANDARD_FOUND")).length
  { total_rooms := total_checks
    passed := passed
    failed := failed
    no_standard_found := no_standard
    pass_rate :=
      if total_checks > 0 then (passed : ℚ) / (total_checks : ℚ) * 100 else 0 }

/-- The report-level compliance result (`summary = none` and `checks = []`
model the initial `{}`/`[]` values that the early-error path leaves behind). -/
structure ComplianceResult where
  overall_compliance : String
  checks : List CheckEntry
  summary : Option Summary
  error : Option String
  deriving Repr, DecidableEq

/-- The `check_compliance` method.  A report without rooms yields the ERROR
result; otherwise every room is processed in order.  The Python body's
catch-all exception handler is embedded by this function's totality. -/
def check_compliance (parameter_mapping : List (String × List String))
    (standardsData : Option (List Standard)) (report : Report) :
    ComplianceResult :=
  if report.rooms.isEmpty then
    { overall_compliance := "ERROR"
      checks := []
      summary := none
      error := some "No room data found in report" }
  else
    let checks :=
      report.rooms.filterMap (process_room parameter_mapping standardsData
        report)
    { overall_compliance := determine_overall_compliance checks
      checks := checks
      summary := some (generate_summary checks)
      error := none }

/-! ## Theorems -/

/-- Every canonical name of the alias table is a fixed point of
`normalize_key`. -/
theorem normalize_key_canonical_fixed :
    (ALIASES.map Prod.fst).all (fun c => normalize_key c == c) = true := by
  decide

/-- The result of `normalize_key` is the input itself or a canonical name of
the alias table. -/
theorem normalize_key_shape (x : String) :
    normalize_key x = x ∨ normalize_key x ∈ ALIASES.map Prod.fst := by
  unfold normalize_key
  split
  · exact Or.inl rfl
  · cases hd : directLookup (pyLower (pyStrip x)) with
    | some c =>
      simp only [hd]
      right
      obtain ⟨ca, hca, hc⟩ := Option.map_eq_some'.mp hd
      rw [← hc]
      exact List.mem_map_of_mem Prod.fst (List.mem_of_find?_eq_some hca)
    | none =>
      cases hf : fuzzyLookup (collapseSeps (pyLower (pyStrip x))) with
      | some c =>
        simp only [hd, hf]
        right
        obtain ⟨ca, hca, hc⟩ := Option.map_eq_some'.mp hf
        rw [← hc]
        exact List.mem_map_of_mem Prod.fst (List.mem_of_find?_eq_some hca)
      | none =>
        simp only [hd, hf]
        exact Or.inl trivial

/-- C9: `normalize_key` is idempotent — a matched alias maps to a canonical
name that is itself a fixed point, and an unmatched input is returned
unchanged, so a second application is a no-op. -/
theorem normalize_key_idempotent (x : String) :
    normalize_key (normalize_key x) = normalize_key x := by
  rcases normalize_key_shape x with h | h
  · rw [h]; exact h
  · exact eq_of_beq (List.all_eq_true.mp normalize_key_canonical_fixed _ h)

/-- C8: `validate_lighting_values` is total and, for each of the five
range-checked fields, nulls exactly the violating fields, records one issue
message per violation, sets `needs_review` to whether any violation occurred,
and returns a record with no violations unchanged except for
`needs_review = false`. -/
theorem validate_lighting_values_spec (r : LightRecord) :
    (validate_lighting_values r).needs_review =
      some (raViol r || uoViol r || emViol r || ruglViol r || cctViol r) ∧
    (validate_lighting_values r).Ra = (if raViol r then none else r.Ra) ∧
    (validate_lighting_values r).Uo = (if uoViol r then none else r.Uo) ∧
    (validate_lighting_values r).Em_r_lx =
      (if emViol r then none else r.Em_r_lx) ∧
    (validate_lighting_values r).RUGL =
      (if ruglViol r then none else r.RUGL) ∧
    (validate_lighting_values r).CCT = (if cctViol r then none else r.CCT) ∧
    (validate_lighting_values r).validation_issues.length =
      (if raViol r || uoViol r || emViol r || ruglViol r || cctViol r then
        (cond (raViol r) 1 0) + (cond (uoViol r) 1 0) + (cond (emViol r) 1 0) +
          (cond (ruglViol r) 1 0) + (cond (cctViol r) 1 0)
       else r.validation_issues.length) ∧
    ((raViol r || uoViol r || emViol r || ruglViol r || cctViol r) = false →
      validate_lighting_values r = { r with needs_review := some false }) := by
  cases hra : raViol r <;> cases huo : uoViol r <;> cases hem : emViol r <;>
    cases hrugl : ruglViol r <;> cases hcct : cctViol r <;>
    simp [validate_lighting_values, hra, huo, hem, hrugl, hcct]

/-- Witness for C8 at a concrete in-range record: no field changes and
`needs_review` becomes `false`. -/
theorem validate_lighting_values_spec_witness :
    validate_lighting_values
      ⟨some 80, some 1, some 500, some 19, some 4000, [], none⟩ =
      ⟨some 80, some 1, some 500, some 19, some 4000, [], some false⟩ := by
  have h := (validate_lighting_values_spec
    ⟨some 80, some 1, some 500, some 19, some 4000, [], none⟩).2.2.2.2.2.2.2
  exact h (by decide)

/-- C2: when some catalog record's task/activity equals the profile string
case-insensitively and has both lighting and uniformity requirements, the
resolver returns the first record satisfying rule 1 (exact match with
lighting and uniformity requirements) — never a partial or
uniformity-lacking match. -/
theorem find_matching_standard_exact_uniformity_first
    (stds : List Standard) (profile : String)
    (h : ∃ s ∈ stds, taskLower s = pyLower profile ∧
      has_lighting_requirements s = true ∧
      has_uniformity_requirement s = true) :
    find_matching_standard (some stds) profile =
      stds.find? (rule1Pred (pyLower profile)) ∧
    ∃ r, find_matching_standard (some stds) profile = some r ∧
      taskLower r = pyLower profile ∧ has_lighting_requirements r = true ∧
      has_uniformity_requirement r = true := by
  obtain ⟨s, hs, ht, hl, hu⟩ := h
  have hps : rule1Pred (pyLower profile) s = true := by
    simp [rule1Pred, ht, hl, hu]
  have hsome : (stds.find? (rule1Pred (pyLower profile))).isSome :=
    List.find?_isSome.mpr ⟨s, hs, hps⟩
  obtain ⟨r, hr⟩ := Option.isSome_iff_exists.mp hsome
  have hpr := List.find?_some hr
  have hfind : find_matching_standard (some stds) profile =
      stds.find? (rule1Pred (pyLower profile)) := by
    unfold find_matching_standard
    simp only [hr, Option.some_orElse]
  have hconj : taskLower r = pyLower profile ∧
      has_lighting_requirements r = true ∧
      has_uniformity_requirement r = true := by
    simpa [rule1Pred] using hpr
  exact ⟨hfind, r, hfind.trans hr, hconj.1, hconj.2.1, hconj.2.2⟩

/-- A catalog record that only partially matches "Office work" and has no
uniformity requirement; placed first in the witness catalog. -/
def stdPartial : Standard :=
  { ref_no := some "6.1", category := some "Offices",
    task_or_activity := some "Office work area lighting",
    Em_r_lx := some 300, Em_u_lx := none, Uo := none, Ra := none,
    RUGL := none, Ez_lx := none, Em_wall_lx := none, Em_ceiling_lx := none }

/-- A catalog record exactly matching "Office work" with lighting and
uniformity requirements. -/
def stdOffice : Standard :=
  { ref_no := some "6.2", category := some "Offices",
    task_or_activity := some "Office work",
    Em_r_lx := some 500, Em_u_lx := none, Uo := some 1, Ra := some 80,
    RUGL := none, Ez_lx := none, Em_wall_lx := none, Em_ceiling_lx := none }

/-- Witness for C2: with a partial/uniformity-lacking record listed first,
the exact+uniformity record is still the one returned. -/
theorem find_matching_standard_exact_uniformity_first_witness :
    ∃ r, find_matching_standard (some [stdPartial, stdOffice]) "Office work" =
        some r ∧
      taskLower r = pyLower "Office work" ∧
      has_lighting_requirements r = true ∧
      has_uniformity_requirement r = true :=
  (find_matching_standard_exact_uniformity_first [stdPartial, stdOffice]
    "Office work" (by decide)).2

/-- Helper: an or-else chain is populated whenever its tail is. -/
theorem optIsSomeOrElse {α : Type} (a b : Option α) (h : b.isSome = true) :
    (a <|> b).isSome = true := by
  cases a with
  | some v => rfl
  | none => simpa using h

/-- C3: a catalog containing at least one record with lighting and (non-zero)
uniformity requirements makes the resolver total — it never returns `none`
for any profile string — and when rules 1 through 5 all produce nothing, the
record returned is the first one in catalog order with both requirements. -/
theorem find_matching_standard_last_resort
    (stds : List Standard) (profile : String)
    (h : ∃ s ∈ stds, has_lighting_requirements s = true ∧
      has_uniformity_requirement s = true) :
    (∃ r, find_matching_standard (some stds) profile = some r) ∧
    (stds.find? (rule1Pred (pyLower profile)) = none →
     stds.find? (rule2Pred (pyLower profile)) = none →
     stds.find? (rule3Pred (pyLower profile)) = none →
     (if industrialKeywords.any (fun kw => pyIn kw (pyLower profile)) then
        stds.find? rule4Pred else none) = none →
     stds.find? rule5Pred = none →
     find_matching_standard (some stds) profile = stds.find? rule6Pred) := by
  obtain ⟨s, hs, hl, hu⟩ := h
  have h6 : (stds.find? rule6Pred).isSome :=
    List.find?_isSome.mpr ⟨s, hs, by simp [rule6Pred, hl, hu]⟩
  constructor
  · apply Option.isSome_iff_exists.mp
    unfold find_matching_standard
    apply optIsSomeOrElse
    apply optIsSomeOrElse
    apply optIsSomeOrElse
    apply optIsSomeOrElse
    exact optIsSomeOrElse _ _ h6
  · intro h1 h2 h3 h4 h5
    unfold find_matching_standard
    simp only [h1, h2, h3, h4, h5, Option.none_orElse]

/-- A catalog record with lighting and uniformity requirements but no text
relation to the witness profile. -/
def stdStore : Standard :=
  { ref_no := some "5.1", category := none,
    task_or_activity := some "Cold store",
    Em_r_lx := some 100, Em_u_lx := none, Uo := some 1, Ra := none,
    RUGL := none, Ez_lx := none, Em_wall_lx := none, Em_ceiling_lx := none }

/-- Witness for C3: a profile with no catalog relation at all still resolves,
through the last-resort rule, to the first lighting+uniformity record. -/
theorem find_matching_standard_last_resort_witness :
    (∃ r, find_matching_standard (some [stdStore])
      "Underwater basket weaving" = some r) ∧
    find_matching_standard (some [stdStore]) "Underwater basket weaving" =
      [stdStore].find? rule6Pred := by
  have h := find_matching_standard_last_resort [stdStore]
    "Underwater basket weaving" (by decide)
  exact ⟨h.1, h.2 (by decide) (by decide) (by decide) (by decide) (by decide)⟩

/-- Helper: the overall roll-up only ever produces one of the five
enumerated statuses. -/
theorem determine_overall_mem (checks : List CheckEntry) :
    determine_overall_compliance checks ∈
      ["NO_CHECKS", "FAIL", "PARTIAL", "PASS", "UNKNOWN"] := by
  unfold determine_overall_compliance
  split
  · simp
  · dsimp only
    split
    · simp
    · split
      · simp
      · split <;> simp

/-- C6: `check_compliance` (a total function here, embedding the Python
catch-all exception handler) always yields a well-formed result whose overall
status is one of the enumerated strings, and an empty or absent rooms list
yields `ERROR` with the explanatory message and an empty checks list. -/
theorem check_compliance_error_handling (pm : List (String × List String))
    (sd : Option (List Standard)) (report : Report) :
    (report.rooms = [] →
      (check_compliance pm sd report).overall_compliance = "ERROR" ∧
      (check_compliance pm sd report).error =
        some "No room data found in report" ∧
      (check_compliance pm sd report).checks = []) ∧
    (check_compliance pm sd report).overall_compliance ∈
      ["PASS", "FAIL", "PARTIAL", "NO_CHECKS", "UNKNOWN", "ERROR"] := by
  constructor
  · intro h
    simp [check_compliance, h]
  · unfold check_compliance
    split
    · simp
    · dsimp only
      have hm := determine_overall_mem
        (report.rooms.filterMap (process_room pm sd report))
      simp only [List.mem_cons, List.mem_singleton] at hm ⊢
      tauto

/-- Helper: a full room evaluation ends in PASS or FAIL. -/
theorem perform_status_cases (pm : List (String × List String)) (room : Room)
    (std : Standard) (ld : List (String × ℚ)) :
    (perform_room_compliance_check pm room std ld).status = "PASS" ∨
    (perform_room_compliance_check pm room std ld).status = "FAIL" := by
  unfold perform_room_compliance_check
  dsimp only
  split_ifs <;> simp

/-- Helper: every produced check entry carries one of the three per-room
statuses. -/
theorem process_room_status (pm : List (String × List String))
    (sd : Option (List Standard)) (report : Report) (room : Room)
    (e : CheckEntry) (h : process_room pm sd report room = some e) :
    e.status = "PASS" ∨ e.status = "FAIL" ∨
      e.status = "NO_STANDARD_FOUND" := by
  unfold process_room at h
  dsimp only at h
  by_cases hp : resolve_profile room report.scenes = ""
  · rw [if_pos hp] at h
    exact absurd h (by simp)
  · rw [if_neg hp] at h
    cases hfm : find_matching_standard sd (resolve_profile room report.scenes)
      with
    | none =>
      rw [hfm] at h
      right; right
      obtain rfl := Option.some_injective _ h.symm
      rfl
    | some std =>
      rw [hfm] at h
      obtain rfl := Option.some_injective _ h.symm
      rcases perform_status_cases pm room std _ with hq | hq
      · exact Or.inl hq
      · exact Or.inr (Or.inl hq)

/-- Helper: a list of entries whose statuses are among the three per-room
statuses is fully partitioned by the three status counts. -/
theorem count_three_statuses (l : List CheckEntry)
    (h : ∀ e ∈ l, e.status = "PASS" ∨ e.status = "FAIL" ∨
      e.status = "NO_STANDARD_FOUND") :
    (l.filter (fun c => c.status == "PASS")).length +
    (l.filter (fun c => c.status == "FAIL")).length +
    (l.filter (fun c => c.status == "NO_STANDARD_FOUND")).length =
      l.length := by
  induction l with
  | nil => simp
  | cons a t ih =>
    have ha := h a (by simp)
    have ht := ih (fun e he => h e (List.mem_cons_of_mem _ he))
    rcases ha with h1 | h1 | h1 <;>
      simp [List.filter_cons, h1, ht] <;> omega

/-- C7: for every produced summary, passed + failed + no_standard_found
equals total_rooms, and the pass rate is passed/total*100 (0 when the total
is 0). -/
theorem check_compliance_summary_consistent (pm : List (String × List String))
    (sd : Option (List Standard)) (report : Report)
    (h : report.rooms ≠ []) :
    ∃ s, (check_compliance pm sd report).summary = some s ∧
      s.passed + s.failed + s.no_standard_found = s.total_rooms ∧
      s.pass_rate =
        (if s.total_rooms > 0 then
          (s.passed : ℚ) / (s.total_rooms : ℚ) * 100
         else 0) := by
  unfold check_compliance
  rw [if_neg (by simpa [List.isEmpty_iff] using h)]
  refine ⟨generate_summary
    (report.rooms.filterMap (process_room pm sd report)), rfl, ?_, ?_⟩
  · exact count_three_statuses _ (fun e he => by
      obtain ⟨a, _, ha⟩ := List.mem_filterMap.mp he
      exact process_room_status pm sd report a e ha)
  · rfl

/-- Helper: the room-name inference always produces a non-empty label. -/
theorem nameInferredProfile_ne_empty (room : Room) :
    nameInferredProfile room ≠ "" := by
  unfold nameInferredProfile
  dsimp only
  split_ifs <;> decide

/-- Helper: profile resolution never yields the empty string, so the
skip-room branch of the loop is unreachable. -/
theorem resolve_profile_ne_empty (room : Room) (scenes : List Scene) :
    resolve_profile room scenes ≠ "" := by
  unfold resolve_profile
  dsimp only
  by_cases h : sceneProfile room scenes = ""
  · rw [if_pos h]
    exact nameInferredProfile_ne_empty room
  · rw [if_neg h]
    exact h

/-- Helper: every room produces exactly one check entry. -/
theorem process_room_isSome (pm : List (String × List String))
    (sd : Option (List Standard)) (report : Report) (room : Room) :
    (process_room pm sd report room).isSome := by
  unfold process_room
  dsimp only
  rw [if_neg (resolve_profile_ne_empty room report.scenes)]
  split <;> rfl

/-- Helper: a filterMap whose function is everywhere defined keeps the
length. -/
theorem filterMapLengthAllSome {α β : Type} (f : α → Option β) (l : List α)
    (h : ∀ a ∈ l, (f a).isSome) : (l.filterMap f).length = l.length := by
  induction l with
  | nil => rfl
  | cons a t ih =>
    obtain ⟨b, hb⟩ := Option.isSome_iff_exists.mp (h a (by simp))
    simp [List.filterMap_cons, hb,
      ih (fun x hx => h x (List.mem_cons_of_mem _ hx))]

/-- Helper: a non-empty checks list never rolls up to `NO_CHECKS`. -/
theorem determine_ne_no_checks (checks : List CheckEntry)
    (h : checks ≠ []) : determine_overall_compliance checks ≠ "NO_CHECKS" := by
  unfold determine_overall_compliance
  rw [if_neg (by simpa [List.isEmpty_iff] using h)]
  dsimp only
  split_ifs <;> decide

/-- C10: every room of a non-empty report contributes exactly one check
entry (the empty-profile skip branch is unreachable because name inference
always yields a non-empty label), so `total_rooms` equals the number of input
rooms and the overall status is never `NO_CHECKS`. -/
theorem check_compliance_one_entry_per_room (pm : List (String × List String))
    (sd : Option (List Standard)) (report : Report) :
    (∀ room scenes, resolve_profile room scenes ≠ "") ∧
    (report.rooms ≠ [] →
      (check_compliance pm sd report).checks.length =
        report.rooms.length) ∧
    (check_compliance pm sd report).overall_compliance ≠ "NO_CHECKS" := by
  refine ⟨resolve_profile_ne_empty, ?_, ?_⟩
  · intro h
    unfold check_compliance
    rw [if_neg (by simpa [List.isEmpty_iff] using h)]
    exact filterMapLengthAllSome _ _
      (fun a _ => process_room_isSome pm sd report a)
  · unfold check_compliance
    split
    · simp
    · dsimp only
      apply determine_ne_no_checks
      intro hnil
      have hlen := filterMapLengthAllSome (process_room pm sd report)
        report.rooms (fun a _ => process_room_isSome pm sd report a)
      rw [hnil] at hlen
      simp only [List.length_nil] at hlen
      rename_i hne
      rw [List.isEmpty_iff] at hne
      exact hne (List.length_eq_zero.mp hlen.symm)

/-- Witness for C6 at the concrete empty report: ERROR with message and no
checks. -/
theorem check_compliance_error_handling_witness :
    (check_compliance [] none ⟨[], [], []⟩).overall_compliance = "ERROR" ∧
    (check_compliance [] none ⟨[], [], []⟩).error =
      some "No room data found in report" ∧
    (check_compliance [] none ⟨[], [], []⟩).checks = [] :=
  (check_compliance_error_handling [] none ⟨[], [], []⟩).1 rfl

/-- A one-room report whose room declares the "Office work" profile. -/
def rep1 : Report :=
  { lighting_setup := [("average_lux", 600), ("uniformity", 1)]
    rooms := [{ name := some "Room1", utilisation_profile := some "Office work" }]
    scenes := [] }

/-- Witness for C7 at a concrete one-room report. -/
theorem check_compliance_summary_consistent_witness :
    ∃ s, (check_compliance [] (some [stdOffice]) rep1).summary = some s ∧
      s.passed + s.failed + s.no_standard_found = s.total_rooms ∧
      s.pass_rate =
        (if s.total_rooms > 0 then
          (s.passed : ℚ) / (s.total_rooms : ℚ) * 100
         else 0) :=
  check_compliance_summary_consistent [] (some [stdOffice]) rep1 (by decide)

/-- Witness for C10 at a concrete one-room report: exactly one check entry
and an overall status other than `NO_CHECKS`. -/
theorem check_compliance_one_entry_per_room_witness :
    (check_compliance [] (some [stdOffice]) rep1).checks.length =
      rep1.rooms.length ∧
    (check_compliance [] (some [stdOffice]) rep1).overall_compliance ≠
      "NO_CHECKS" :=
  ⟨(check_compliance_one_entry_per_room [] (some [stdOffice]) rep1).2.1
      (by decide),
    (check_compliance_one_entry_per_room [] (some [stdOffice]) rep1).2.2⟩

/-- C1: the room status is decided by the mandatory lux/uniformity checks
alone — PASS exactly when neither applicable mandatory check fails — while a
positive required Ra records an `ra` entry (with `found = false` and null
compliant/actual/margin when no alias locates a measured value) that never
affects the status. -/
theorem perform_room_check_ra_informational (pm : List (String × List String)) (room : Room)
    (std : Standard) (ld : List (String × ℚ)) :
    ((perform_room_compliance_check pm room std ld).status = "PASS" ↔
      ¬((required_lux std > 0 ∧ getQ ld "average_lux" < required_lux std) ∨
        (required_uniformity std > 0 ∧
          getQ ld "uniformity" < required_uniformity std))) ∧
    (required_ra std > 0 →
      ∃ rc, (perform_room_compliance_check pm room std ld).ra = some rc ∧
        ((find_parameter_value pm ld "color_rendering_ra").found = false →
          rc.found = false ∧ rc.compliant = none ∧ rc.actual = none ∧
          rc.margin = none)) ∧
    (¬required_ra std > 0 →
      (perform_room_compliance_check pm room std ld).ra = none) := by
  unfold perform_room_compliance_check
  dsimp only
  refine ⟨?_, ?_, ?_⟩
  · by_cases h1 : required_lux std > 0 <;>
      by_cases h2 : getQ ld "average_lux" ≥ required_lux std <;>
      by_cases h3 : required_uniformity std > 0 <;>
      by_cases h4 : getQ ld "uniformity" ≥ required_uniformity std <;>
      simp [h1, h2, h3, h4, not_le, not_lt]
  · intro h5
    rw [if_pos h5]
    cases hf : (find_parameter_value pm ld "color_rendering_ra").found with
    | true =>
      refine ⟨_, if_pos rfl, ?_⟩
      intro hcontra
      exact absurd hcontra (by simp)
    | false =>
      exact ⟨_, if_neg (by simp), fun _ => ⟨rfl, rfl, rfl, rfl⟩⟩
  · intro h5
    rw [if_neg h5]

/-- Parameter mapping used by the C1 witness. -/
def pmRa : List (String × List String) := [("color_rendering_ra", ["ra", "cri"])]

/-- Measurement data of the C1 witness: passing lux and uniformity values and
no Ra value under any alias. -/
def ldW : List (String × ℚ) := [("average_lux", 600), ("uniformity", 1)]

/-- Witness for C1: with `stdOffice` requiring Ra 80 but no measured Ra
available, the room still passes and the recorded `ra` entry has
`found = false` with null compliant/actual/margin. -/
theorem perform_room_check_ra_informational_witness :
    (perform_room_compliance_check pmRa
      ⟨some "Room1", some "Office work"⟩ stdOffice ldW).status = "PASS" ∧
    ∃ rc, (perform_room_compliance_check pmRa
        ⟨some "Room1", some "Office work"⟩ stdOffice ldW).ra = some rc ∧
      rc.found = false ∧ rc.compliant = none ∧ rc.actual = none ∧
      rc.margin = none := by
  have h := perform_room_check_ra_informational pmRa
    ⟨some "Room1", some "Office work"⟩ stdOffice ldW
  obtain ⟨rc, hrc, hnull⟩ := h.2.1 (by decide)
  have hn := hnull (by decide)
  exact ⟨h.1.mpr (by decide), rc, hrc, hn.1, hn.2.1, hn.2.2.1, hn.2.2.2⟩

/-- Claim-side definition (follows the claim C4's words, for comparison with
the code): the profile the claim says is derived from a given
position-correlated scene. -/
def claimSceneProfile (sc : Scene) : String :=
  if industrialKeywords.any
      (fun kw => pyIn kw (pyLower (sc.scene_name.getD ""))) then
    "General assembly work"
  else sc.utilisation_profile.getD ""

def scene0cex : Scene :=
  { scene_name := some "Office scene", utilisation_profile := some "Office work",
    data := [("average_lux", 600), ("uniformity", 1)] }

def scene1cex : Scene :=
  { scene_name := some "Factory floor", utilisation_profile := none,
    data := [("average_lux", 600), ("uniformity", 1)] }

def stdAssembly : Standard :=
  { ref_no := some "7.1", category := some "Industry",
    task_or_activity := some "General assembly work",
    Em_r_lx := some 300, Em_u_lx := none, Uo := some 1, Ra := none,
    RUGL := none, Ez_lx := none, Em_wall_lx := none, Em_ceiling_lx := none }

def cexReport : Report :=
  { lighting_setup := []
    rooms := [⟨some "Hall A", none⟩, ⟨some "Hall B", none⟩]
    scenes := [scene0cex, scene1cex] }

/-- C4 counterexample: in a two-room report with blank room profiles, the
claim predicts room index 1 gets the industrial label from its own scene
("Factory floor"), but the code derives every room's profile from scene 0
("Office scene"), so both rooms match the "Office work" standard. -/
theorem check_compliance_scene_profile_counterexample :
    resolve_profile ⟨some "Hall B", none⟩ [scene0cex, scene1cex] =
      "Office work" ∧
    claimSceneProfile scene1cex = "General assembly work" ∧
    ((check_compliance pmRa (some [stdOffice, stdAssembly])
        cexReport).checks.map
      (fun e => e.standard.map (fun sr => sr.task_or_activity))) =
      [some "Office work", some "Office work"] ∧
    ("Office work" : String) ≠ "General assembly work" := by
  decide

/-- C4 amended: for a room with a blank declared profile and a non-empty
scenes list, the scene-derived profile is computed from the FIRST scene
(index 0) regardless of the room's index — the industrial label when scene
0's name mentions an industrial keyword, else scene 0's declared profile —
with the room-name rules applying when that is blank. -/
theorem resolve_profile_uses_first_scene (room : Room) (scenes : List Scene) (s0 : Scene)
    (hblank : room.utilisation_profile.getD "" = "")
    (hhead : scenes.head? = some s0) :
    sceneProfile room scenes = claimSceneProfile s0 ∧
    resolve_profile room scenes =
      (if claimSceneProfile s0 = "" then nameInferredProfile room
       else claimSceneProfile s0) := by
  have h1 : sceneProfile room scenes = claimSceneProfile s0 := by
    unfold sceneProfile claimSceneProfile
    simp [hblank, hhead]
  refine ⟨h1, ?_⟩
  unfold resolve_profile
  rw [h1]

/-- Witness for the amended C4 at a concrete blank-profile room and a
one-scene list. -/
theorem resolve_profile_uses_first_scene_witness :
    sceneProfile ⟨some "Hall B", none⟩ [scene1cex] =
      claimSceneProfile scene1cex ∧
    resolve_profile ⟨some "Hall B", none⟩ [scene1cex] =
      (if claimSceneProfile scene1cex = "" then
        nameInferredProfile ⟨some "Hall B", none⟩
       else claimSceneProfile scene1cex) :=
  resolve_profile_uses_first_scene ⟨some "Hall B", none⟩ [scene1cex]
    scene1cex rfl rfl

def c5Report : Report :=
  { lighting_setup := []
    rooms := [⟨some "Office 1", none⟩]
    scenes := [] }

/-- C5 counterexample: a room whose profile is inferred from its name
("Office 1" → "Office work") selects the office standard, yet the produced
entry's `utilisation_profile` field is the blank declared value, not the
resolved profile that chose the standard. -/
theorem room_result_profile_counterexample :
    ((check_compliance [] (some [stdOffice]) c5Report).checks.map
      (fun e => e.utilisation_profile)) = [""] ∧
    resolve_profile ⟨some "Office 1", none⟩ [] = "Office work" ∧
    ((check_compliance [] (some [stdOffice]) c5Report).checks.map
      (fun e => e.standard.map (fun sr => sr.task_or_activity))) =
      [some "Office work"] ∧
    (("" : String) ≠ "Office work") := by
  decide

/-- Helper: when the room declares a non-blank profile, resolution returns
it unchanged. -/
theorem resolve_profile_declared (room : Room) (scenes : List Scene)
    (h : room.utilisation_profile.getD "" ≠ "") :
    resolve_profile room scenes = room.utilisation_profile.getD "" := by
  have h1 : sceneProfile room scenes = room.utilisation_profile.getD "" := by
    unfold sceneProfile
    simp [h]
  unfold resolve_profile
  rw [h1, if_neg h]

/-- C5 amended: a full room-result entry records the room's own declared
profile (blank when undeclared) in `utilisation_profile`, so that field
equals the resolved profile exactly when the room declared one; only
`NO_STANDARD_FOUND` entries record the resolved profile. -/
theorem process_room_profile_field (pm : List (String × List String))
    (sd : Option (List Standard)) (report : Report) (room : Room)
    (e : CheckEntry) (h : process_room pm sd report room = some e) :
    (e.status = "NO_STANDARD_FOUND" →
      e.utilisation_profile = resolve_profile room report.scenes) ∧
    (e.status ≠ "NO_STANDARD_FOUND" →
      e.utilisation_profile = room.utilisation_profile.getD "") ∧
    (room.utilisation_profile.getD "" ≠ "" →
      e.utilisation_profile = resolve_profile room report.scenes) := by
  unfold process_room at h
  dsimp only at h
  rw [if_neg (resolve_profile_ne_empty room report.scenes)] at h
  cases hfm : find_matching_standard sd (resolve_profile room report.scenes)
    with
  | none =>
    rw [hfm] at h
    obtain rfl := Option.some_injective _ h.symm
    refine ⟨fun _ => rfl, fun hne => absurd rfl hne, fun _ => rfl⟩
  | some std =>
    rw [hfm] at h
    obtain rfl := Option.some_injective _ h.symm
    refine ⟨?_, fun _ => rfl, ?_⟩
    · intro hst
      rcases perform_status_cases pm room std _ with hq | hq <;>
        rw [hst] at hq <;> exact absurd hq (by decide)
    · intro hd
      rw [resolve_profile_declared room report.scenes hd]
      rfl

/-- Witness for the amended C5 at a room with a declared profile: the entry
records the resolved (= declared) profile. -/
theorem process_room_profile_field_witness :
    ∃ e, process_room [] (some [stdOffice]) rep1
        ⟨some "Room1", some "Office work"⟩ = some e ∧
      e.utilisation_profile =
        resolve_profile ⟨some "Room1", some "Office work"⟩ rep1.scenes := by
  obtain ⟨e, he⟩ := Option.isSome_iff_exists.mp
    (by decide :
      (process_room [] (some [stdOffice]) rep1
        ⟨some "Room1", some "Office work"⟩).isSome = true)
  have h := process_room_profile_field [] (some [stdOffice]) rep1
    ⟨some "Room1", some "Office work"⟩ e he
  exact ⟨e, he, h.2.2 (by decide)⟩
